import Mathlib

/-!
Shallow embedding of `src/lib/gui/app/components/flash-results/flash-results.tsx`
from the etcher repository: the post-flash results screen.  The component's
render output is modelled as a pure function producing a view structure, and
the error-detail dialog's confirm/cancel handlers are modelled as transitions
on an explicit application state.  Numbers carried by JavaScript are modelled
as rationals (sizes, speeds) and naturals (device counts).
-/

namespace FlashResults

/-- A drive as known to the selection-state model, identified by its device
path, with a human-readable description. -/
structure Drive where
  device : String
  description : String
deriving DecidableEq, Repr

/-- FlashError from the source: extends the JavaScript Error (message) with a
target description, a device identifier and an error code. -/
structure FlashError where
  message : String
  description : String
  device : String
  code : String
deriving DecidableEq, Repr

/-- formattedErrors from the source: one line per error,
"device: message-or-code" (the code is used when the message is empty, the
JavaScript falsy test), joined with newlines. -/
def formattedErrors (errors : List FlashError) : String :=
  String.intercalate "\n"
    (errors.map (fun error =>
      error.device ++ ": " ++ (if error.message = "" then error.code else error.message)))

/-- The two completion glyphs the component can show. -/
inductive Glyph where
  | timesCircle
  | checkCircle
deriving DecidableEq, Repr

/-- The rendered completion icon: which glyph, and the fill and style color
passed through svgProps. -/
structure Icon where
  glyph : Glyph
  fill : String
  color : String
deriving DecidableEq, Repr

/-- DoneIcon from the source: failure glyph when all targets failed and
validation was not skipped, success glyph otherwise; gray fill and color when
some or all targets failed, green otherwise. -/
def DoneIcon (skipped allFailed someFailed : Bool) : Icon :=
  let someOrAllFailed := allFailed || someFailed
  { glyph := if allFailed && !skipped then Glyph.timesCircle else Glyph.checkCircle
    fill := if someOrAllFailed then "#c6c8c9" else "#1ac135"
    color := if someOrAllFailed then "#c6c8c9" else "#1ac135" }

/-- results.sourceMetadata from the component's prop type. -/
structure SourceMetadata where
  size : ℚ
  blockmappedSize : ℚ
deriving DecidableEq, Repr

/-- results.devices from the component's prop type: its keys are failed and
successful, declared in that order. -/
structure Devices where
  failed : Nat
  successful : Nat
deriving DecidableEq, Repr

/-- The results prop of the component. -/
structure Results where
  bytesWritten : ℚ
  sourceMetadata : SourceMetadata
  averageFlashingSpeed : ℚ
  devices : Devices
deriving DecidableEq, Repr

/-- Modelled from the spec: bytesToMegabytes from shared/units (not in src/),
the conversion of a byte count to megabytes. -/
def bytesToMegabytes (bytes : ℚ) : ℚ :=
  bytes / 1000000

/-- Lodash round with precision 1 (external library): round to the nearest
tenth, ties toward positive infinity as in JavaScript Math.round. -/
def roundTo1 (x : ℚ) : ℚ :=
  ((round (x * 10) : ℤ) : ℚ) / 10

/-- effectiveSpeed from the source: image size divided by
(bytes written / average flashing speed), converted to megabytes and rounded
to one decimal place. -/
def effectiveSpeed (results : Results) : ℚ :=
  roundTo1 (bytesToMegabytes
    (results.sourceMetadata.size /
      (results.bytesWritten / results.averageFlashingSpeed)))

/-- Modelled from the spec: the progress message map from shared/messages
(not in src/), giving a pluralized label for a device outcome category. -/
def progressLabel (type : String) (quantity : Nat) : String :=
  if type = "failed" then
    if quantity = 1 then "Failed target" else "Failed targets"
  else
    if quantity = 1 then "Successful target" else "Successful targets"

/-- Object.entries(results.devices): the key/value pairs of the devices
record, in the declaration order of its keys. -/
def deviceEntries (d : Devices) : List (String × Nat) :=
  [("failed", d.failed), ("successful", d.successful)]

/-- One rendered summary row: the category key, the indicator fill color, the
count, the pluralized label, the optional tooltip and whether the
"more info" link is present. -/
structure SummaryRow where
  category : String
  indicatorFill : String
  count : Nat
  label : String
  tooltip : Option String
  moreInfo : Bool
deriving DecidableEq, Repr

/-- The summary-row block of the render: one row per entry of
results.devices with a truthy (nonzero) quantity; the failed row carries the
formatted-errors tooltip and the "more info" link. -/
def summaryRows (results : Results) (errors : List FlashError) : List SummaryRow :=
  (deviceEntries results.devices).filterMap (fun p =>
    let type := p.1
    let quantity := p.2
    let failedTargets : Bool := decide (type = "failed")
    if quantity ≠ 0 then
      some { category := type
             indicatorFill := if type = "failed" then "#ff4444" else "#1ac135"
             count := quantity
             label := progressLabel type quantity
             tooltip := if failedTargets then some (formattedErrors errors) else none
             moreInfo := failedTargets }
    else none)

/-- One row of the error-detail dialog's table, one column per entry of the
columns array of the source. -/
structure ErrorRow where
  target : String
  location : String
  errorText : String
deriving DecidableEq, Repr

/-- The render of the Error column from the columns array of the source:
the message when truthy (nonempty), the code otherwise. -/
def renderMessage (message code : String) : String :=
  if message = "" then code else message

/-- The data rows of the error-detail dialog's table: one row per FlashError,
with the Target, Location and Error columns. -/
def errorTableRows (errors : List FlashError) : List ErrorRow :=
  errors.map (fun e =>
    { target := e.description
      location := e.device
      errorText := renderMessage e.message e.code })

/-- Modelled from the spec: middleEllipsis from utils (not in src/), which
shortens a label to a maximum length with a middle ellipsis. -/
def middleEllipsis (s : String) (limit : Nat) : String :=
  if s.length ≤ limit then s
  else s.take (limit / 2) ++ "…" ++ s.drop (s.length - limit / 2)

/-- The whole render output of the FlashResults component. -/
structure RenderOutput where
  icon : Icon
  imageLabel : String
  skippedNotice : Bool
  rows : List SummaryRow
  effectiveSpeedText : Option ℚ
  modal : Option (List ErrorRow)
deriving DecidableEq, Repr

/-- The FlashResults render as a pure function of its props and of the
showErrorsInfo React state: the completion icon, the image label, the
skipped-validation notice, the summary rows, the effective-speed text (only
when not all devices failed) and the error-detail dialog (only when
showErrorsInfo is set). -/
def render (image : String) (errors : List FlashError) (skip : Bool)
    (results : Results) (showErrorsInfo : Bool) : RenderOutput :=
  let allFailed := results.devices.successful = 0
  { icon := DoneIcon skip (decide allFailed) (decide (results.devices.failed ≠ 0))
    imageLabel := middleEllipsis image 24
    skippedNotice := skip
    rows := summaryRows results errors
    effectiveSpeedText := if allFailed then none else some (effectiveSpeed results)
    modal := if showErrorsInfo then some (errorTableRows errors) else none }

/-- Modelled from the spec: the global flash-session state module
(models/flash-state, not in src/); resetState returns it to its initial
value. -/
structure FlashState where
  step : Nat
deriving DecidableEq, Repr

/-- Modelled from the spec: the initial value that resetState restores. -/
def initialFlashState : FlashState :=
  { step := 0 }

/-- The application state the dialog handlers act on: the dialog-visibility
flag, the flash-session state, the selection model's selected drives and the
number of times the goToMain callback has been invoked. -/
structure AppState where
  showErrorsInfo : Bool
  flashState : FlashState
  selectedDrives : List Drive
  goToMainCalls : Nat
deriving DecidableEq, Repr

/-- Modelled from the spec: selection.deselectDrive (models/selection-state,
not in src/), removing the drive with the given device identifier from the
selection. -/
def deselectDrive (device : String) (drives : List Drive) : List Drive :=
  drives.filter (fun d => d.device != device)

/-- The Modal cancel handler of the source: only clears the
dialog-visibility flag. -/
def cancelHandler (st : AppState) : AppState :=
  { st with showErrorsInfo := false }

/-- The Modal done handler of the source: hides the dialog, resets the flash
state, deselects every selected drive whose device differs from every
error's device, then calls goToMain. -/
def doneHandler (errors : List FlashError) (st : AppState) : AppState :=
  { showErrorsInfo := false
    flashState := initialFlashState
    selectedDrives :=
      (st.selectedDrives.filter (fun drive =>
          errors.all (fun error => error.device != drive.device))).foldl
        (fun drives drive => deselectDrive drive.device drives) st.selectedDrives
    goToMainCalls := st.goToMainCalls + 1 }

/-- Folding deselectDrive over a list of drives removes from the selection
exactly the drives sharing a device identifier with one of them. -/
theorem foldl_deselect (R D : List Drive) :
    R.foldl (fun drives drive => deselectDrive drive.device drives) D =
      D.filter (fun d => R.all (fun r => d.device != r.device)) := by
  induction R generalizing D with
  | nil => simp
  | cons r R ih =>
      rw [List.foldl_cons, ih]
      show (deselectDrive r.device D).filter _ = _
      rw [deselectDrive, List.filter_filter]
      refine List.filter_congr ?_
      intro d _
      rw [List.all_cons, Bool.and_comm]

/-- The selection left by the done handler is the original selection
restricted to the drives whose device appears among the errors. -/
theorem doneHandler_selectedDrives (errors : List FlashError) (st : AppState) :
    (doneHandler errors st).selectedDrives =
      st.selectedDrives.filter (fun d => errors.any (fun e => e.device == d.device)) := by
  show (st.selectedDrives.filter _).foldl _ st.selectedDrives = _
  rw [foldl_deselect]
  refine List.filter_congr ?_
  intro d hd
  rw [Bool.eq_iff_iff, List.all_eq_true, List.any_eq_true]
  constructor
  · intro h
    by_contra hno
    push_neg at hno
    have hdP : d ∈ st.selectedDrives.filter (fun drive =>
        errors.all (fun error => error.device != drive.device)) := by
      rw [List.mem_filter]
      refine ⟨hd, ?_⟩
      rw [List.all_eq_true]
      intro e he
      rw [bne_iff_ne]
      intro heq
      exact hno e he (by rw [beq_iff_eq]; exact heq)
    have hfalse := h d hdP
    rw [bne_self_eq_false] at hfalse
    exact Bool.false_ne_true hfalse
  · rintro ⟨e, he, hed⟩
    intro r hr
    rw [List.mem_filter] at hr
    obtain ⟨-, hrP⟩ := hr
    rw [List.all_eq_true] at hrP
    have h1 := hrP e he
    rw [bne_iff_ne] at h1 ⊢
    rw [beq_iff_eq] at hed
    exact fun hdr => h1 (hed.trans hdr)

/-- The summary rows written out: a failed row when the failed count is
nonzero, then a successful row when the successful count is nonzero. -/
theorem summaryRows_eq (results : Results) (errors : List FlashError) :
    summaryRows results errors =
      (if results.devices.failed = 0 then [] else
        [{ category := "failed", indicatorFill := "#ff4444",
           count := results.devices.failed,
           label := progressLabel "failed" results.devices.failed,
           tooltip := some (formattedErrors errors), moreInfo := true }]) ++
      (if results.devices.successful = 0 then [] else
        [{ category := "successful", indicatorFill := "#1ac135",
           count := results.devices.successful,
           label := progressLabel "successful" results.devices.successful,
           tooltip := none, moreInfo := false }]) := by
  have hne : ("successful" : String) ≠ "failed" := by decide
  by_cases hf : results.devices.failed = 0 <;>
    by_cases hs : results.devices.successful = 0 <;>
      simp [summaryRows, deviceEntries, hf, hs, hne]

/-- C1: confirming the error-detail dialog hides the dialog, resets the
global flash state, deselects every selected drive whose device differs from
the device of every FlashError (so exactly the selected drives whose device
appears in the error list remain selected), and calls goToMain. -/
theorem done_confirm_effects (errors : List FlashError) (st : AppState) :
    (doneHandler errors st).showErrorsInfo = false ∧
    (doneHandler errors st).flashState = initialFlashState ∧
    (doneHandler errors st).selectedDrives =
      st.selectedDrives.filter (fun d => errors.any (fun e => e.device == d.device)) ∧
    (doneHandler errors st).goToMainCalls = st.goToMainCalls + 1 :=
  ⟨rfl, rfl, doneHandler_selectedDrives errors st, rfl⟩

/-- C2: the completion glyph is the failure glyph exactly when all targets
failed (successful count zero) and skip is false; otherwise it is the
success glyph. -/
theorem glyph_selection (image : String) (errors : List FlashError) (skip : Bool)
    (results : Results) (showErrorsInfo : Bool) :
    ((render image errors skip results showErrorsInfo).icon.glyph = Glyph.timesCircle ↔
      results.devices.successful = 0 ∧ skip = false) ∧
    ((render image errors skip results showErrorsInfo).icon.glyph = Glyph.checkCircle ↔
      results.devices.successful ≠ 0 ∨ skip = true) := by
  by_cases h : results.devices.successful = 0 <;> cases skip <;>
    simp [render, DoneIcon, h]

/-- C3: the displayed effective speed is the image size divided by
(bytes written / average flashing speed), converted from bytes to megabytes
and rounded to one decimal place. -/
theorem effective_speed_value (image : String) (errors : List FlashError) (skip : Bool)
    (results : Results) (showErrorsInfo : Bool)
    (h : results.devices.successful ≠ 0) :
    (render image errors skip results showErrorsInfo).effectiveSpeedText =
      some (roundTo1 (bytesToMegabytes (results.sourceMetadata.size /
        (results.bytesWritten / results.averageFlashingSpeed)))) := by
  simp [render, effectiveSpeed, h]

/-- Example input for the witnesses: the spec's sample results. -/
def exampleResults : Results :=
  { bytesWritten := 100
    sourceMetadata := { size := 200, blockmappedSize := 200 }
    averageFlashingSpeed := 10
    devices := { failed := 0, successful := 2 } }

/-- Witness for C3 at the spec's example results. -/
theorem effective_speed_value_witness :
    (render "" [] false exampleResults false).effectiveSpeedText =
      some (roundTo1 (bytesToMegabytes (exampleResults.sourceMetadata.size /
        (exampleResults.bytesWritten / exampleResults.averageFlashingSpeed)))) :=
  effective_speed_value "" [] false exampleResults false (by decide)

/-- C4: the effective-speed text is absent exactly when all devices failed,
so it is rendered whenever at least one device succeeded. -/
theorem effective_speed_guard (image : String) (errors : List FlashError) (skip : Bool)
    (results : Results) (showErrorsInfo : Bool) :
    ((render image errors skip results showErrorsInfo).effectiveSpeedText = none ↔
      results.devices.successful = 0) := by
  by_cases h : results.devices.successful = 0 <;> simp [render, h]

/-- C5: for each entry of results.devices, a summary row with that category
and count is rendered exactly when the quantity is nonzero. -/
theorem summary_row_iff (image : String) (errors : List FlashError) (skip : Bool)
    (results : Results) (showErrorsInfo : Bool) (c : String) (q : Nat)
    (h : (c, q) ∈ deviceEntries results.devices) :
    (∃ r ∈ (render image errors skip results showErrorsInfo).rows,
        r.category = c ∧ r.count = q) ↔ q ≠ 0 := by
  have hrows : (render image errors skip results showErrorsInfo).rows =
      summaryRows results errors := rfl
  have hne : ("successful" : String) ≠ "failed" := by decide
  rw [hrows, summaryRows_eq]
  simp only [deviceEntries, List.mem_cons, List.mem_singleton, List.not_mem_nil,
    or_false, Prod.mk.injEq] at h
  by_cases hf : results.devices.failed = 0 <;>
    by_cases hs : results.devices.successful = 0 <;>
      rcases h with ⟨hc, hq⟩ | ⟨hc, hq⟩ <;> subst hc <;> subst hq <;>
        simp [hf, hs, hne, hne.symm]

/-- Example all-failed results for the witnesses. -/
def exampleResultsAllFailed : Results :=
  { bytesWritten := 0
    sourceMetadata := { size := 200, blockmappedSize := 200 }
    averageFlashingSpeed := 0
    devices := { failed := 2, successful := 0 } }

/-- Example error for the witnesses: no message, so the code is shown. -/
def exampleError : FlashError :=
  { message := "", description := "Generic Flash Drive", device := "/dev/sda", code := "EUNKNOWN" }

/-- Witness for C5 at concrete all-failed results. -/
theorem summary_row_iff_witness :
    (∃ r ∈ (render "" [exampleError] false exampleResultsAllFailed false).rows,
        r.category = "failed" ∧ r.count = 2) ↔ (2 : Nat) ≠ 0 :=
  summary_row_iff "" [exampleError] false exampleResultsAllFailed false "failed" 2 (by decide)

/-- C6: the failed-category row, and only it, carries the tooltip with one
"device: message-or-code" line per error joined by newlines, and only it
exposes the more-info action. -/
theorem failed_row_extras (image : String) (errors : List FlashError) (skip : Bool)
    (results : Results) (showErrorsInfo : Bool) :
    ∀ r ∈ (render image errors skip results showErrorsInfo).rows,
      (r.category = "failed" →
        r.tooltip = some (String.intercalate "\n" (errors.map (fun e =>
          e.device ++ ": " ++ (if e.message = "" then e.code else e.message)))) ∧
        r.moreInfo = true) ∧
      (r.category ≠ "failed" → r.tooltip = none ∧ r.moreInfo = false) := by
  intro r hr
  have hne : ("successful" : String) ≠ "failed" := by decide
  have hrows : (render image errors skip results showErrorsInfo).rows =
      summaryRows results errors := rfl
  rw [hrows, summaryRows_eq, List.mem_append] at hr
  rcases hr with hr | hr
  · split at hr
    · simp at hr
    · rw [List.mem_singleton] at hr
      subst hr
      refine ⟨fun _ => ⟨?_, rfl⟩, fun hcat => absurd rfl hcat⟩
      simp [formattedErrors]
  · split at hr
    · simp at hr
    · rw [List.mem_singleton] at hr
      subst hr
      exact ⟨fun hcat => absurd hcat hne, fun _ => ⟨rfl, rfl⟩⟩

/-- The failed summary row produced at the witness input of C6. -/
def exampleFailedRow : SummaryRow :=
  { category := "failed", indicatorFill := "#ff4444", count := 2,
    label := progressLabel "failed" 2,
    tooltip := some (formattedErrors [exampleError]), moreInfo := true }

/-- Witness for C6 at the concrete failed row of the all-failed example. -/
theorem failed_row_extras_witness :
    (exampleFailedRow.category = "failed" →
      exampleFailedRow.tooltip = some (String.intercalate "\n" ([exampleError].map (fun e =>
        e.device ++ ": " ++ (if e.message = "" then e.code else e.message)))) ∧
      exampleFailedRow.moreInfo = true) ∧
    (exampleFailedRow.category ≠ "failed" →
      exampleFailedRow.tooltip = none ∧ exampleFailedRow.moreInfo = false) :=
  failed_row_extras "" [exampleError] false exampleResultsAllFailed false exampleFailedRow
    (by decide)

/-- C7: each row of the error-detail table shows the error's message in the
Error column when the message is nonempty, and the error's code otherwise. -/
theorem error_column_fallback (image : String) (errors : List FlashError) (skip : Bool)
    (results : Results) :
    (render image errors skip results true).modal =
      some (errors.map (fun e =>
        { target := e.description
          location := e.device
          errorText := if e.message = "" then e.code else e.message })) := by
  simp [render, errorTableRows, renderMessage]

/-- C8: cancelling the dialog only clears the dialog-visibility flag; flash
state, drive selection and the goToMain call count are untouched. -/
theorem cancel_only_hides (st : AppState) :
    (cancelHandler st).showErrorsInfo = false ∧
    (cancelHandler st).flashState = st.flashState ∧
    (cancelHandler st).selectedDrives = st.selectedDrives ∧
    (cancelHandler st).goToMainCalls = st.goToMainCalls :=
  ⟨rfl, rfl, rfl, rfl⟩

/-- C9: the completion icon's fill is neutral gray exactly when some device
failed or none succeeded, green exactly when fully successful, and the style
color always equals the fill, whichever glyph is shown. -/
theorem icon_color (image : String) (errors : List FlashError) (skip : Bool)
    (results : Results) (showErrorsInfo : Bool) :
    (((render image errors skip results showErrorsInfo).icon.fill = "#c6c8c9") ↔
      (results.devices.failed ≠ 0 ∨ results.devices.successful = 0)) ∧
    (((render image errors skip results showErrorsInfo).icon.fill = "#1ac135") ↔
      (results.devices.failed = 0 ∧ results.devices.successful ≠ 0)) ∧
    (render image errors skip results showErrorsInfo).icon.color =
      (render image errors skip results showErrorsInfo).icon.fill := by
  have hne : ("#c6c8c9" : String) ≠ "#1ac135" := by decide
  by_cases hf : results.devices.failed = 0 <;>
    by_cases hs : results.devices.successful = 0 <;>
      simp [render, DoneIcon, hf, hs, hne, hne.symm]

/-- C10: the summary-row categories are exactly the keys failed and
successful of results.devices, in that order, each present exactly when its
count is nonzero; no other category (such as skipped) can appear. -/
theorem categories_exact (image : String) (errors : List FlashError) (skip : Bool)
    (results : Results) (showErrorsInfo : Bool) :
    ((render image errors skip results showErrorsInfo).rows.map (fun r => r.category)) =
      (if results.devices.failed = 0 then [] else ["failed"]) ++
      (if results.devices.successful = 0 then [] else ["successful"]) := by
  have hrows : (render image errors skip results showErrorsInfo).rows =
      summaryRows results errors := rfl
  rw [hrows, summaryRows_eq]
  by_cases hf : results.devices.failed = 0 <;>
    by_cases hs : results.devices.successful = 0 <;>
      simp [hf, hs]

end FlashResults
